import Mathlib

set_option autoImplicit false

/-!
Shallow embedding of the Job-Agent browser-apply workflow
(`browser_apply.py` and `scheduler.py`) and proofs about it.

Nondeterministic inputs of the real program (clock readings, browser/page
observations, exceptions raised by Playwright calls) are passed as explicit
parameters, so every embedded function is a pure, executable Lean function
whose control flow mirrors the Python source line by line.
-/

namespace JobAgent

/-! ### Python string containment (`pat in s`) -/

/-- Python `pat in s` on lists of characters: some suffix of `s` has `pat`
as a prefix (the empty pattern is contained in every string). -/
def listContainsSub (pat : List Char) : List Char → Bool
  | [] => pat.isEmpty
  | c :: tl => pat.isPrefixOf (c :: tl) || listContainsSub pat tl

/-- Python substring test `pat in s`. -/
def strContains (s pat : String) : Bool :=
  listContainsSub pat.data s.data

/-- Python `s.lower()`: character-wise lower-casing (they agree on the
ASCII URLs and patterns this program compares). -/
def pyLower (s : String) : String :=
  ⟨s.data.map Char.toLower⟩

/-- Case-insensitive containment, as the spec words it: the pattern occurs
in the lower-cased string. -/
def containsCI (s pat : String) : Bool :=
  strContains (pyLower s) pat

/-! ### Results (`browser_apply._make_result`, lines 64-71) -/

/-- The result dict produced by `_make_result`. `applied_date` is the
`datetime.utcnow().strftime("%Y-%m-%d")` reading, passed in explicitly. -/
structure Result where
  status : String
  application_id : String
  notes : String
  platform : String
  applied_date : String
deriving DecidableEq

/-- `browser_apply._make_result(success, application_id, notes, platform)`;
the `applied_date` parameter stands for the `utcnow` strftime call. -/
def _make_result (success : Bool) (application_id notes platform applied_date : String) :
    Result :=
  { status := if success then "Applied" else "Failed"
    application_id := application_id
    notes := notes
    platform := platform
    applied_date := applied_date }

/-- `browser_apply._timestamp_id()`; `ts` stands for the
`utcnow().strftime("%Y%m%d%H%M%S")` reading. -/
def _timestamp_id (ts : String) : String :=
  "AUTO_" ++ ts

/-! ### Platform configuration (`browser_apply.PLATFORM_CONFIG`, lines 25-55) -/

structure PlatformCfg where
  login_url : String
  username_selector : String
  password_selector : String
  submit_selector : String
  checkpoint_patterns : List String
  checkpoint_wait_url : Option String
  apply_button_selector : String
  form_submit_selector : String
  form_next_selector : String
  platform_name : String
  applied_note : String
  headless : Bool
  two_step_login : Bool := false
deriving DecidableEq

def linkedinConfig : PlatformCfg :=
  { login_url := "https://www.linkedin.com/login"
    username_selector := "#username"
    password_selector := "#password"
    submit_selector := "button[type=submit]"
    checkpoint_patterns := ["checkpoint", "challenge"]
    checkpoint_wait_url := some "**/feed/**"
    apply_button_selector := "button:has-text('Easy Apply'), .jobs-apply-button"
    form_submit_selector := "button:has-text('Submit application')"
    form_next_selector := "button:has-text('Next'), button:has-text('Review')"
    platform_name := "linkedin"
    applied_note := "Submitted via LinkedIn Easy Apply"
    headless := false }

def indeedConfig : PlatformCfg :=
  { login_url := "https://secure.indeed.com/account/login"
    username_selector := "#ifl-InputFormField-3"
    password_selector := "#ifl-InputFormField-7, input[type=password]"
    submit_selector := "button[type=submit]"
    checkpoint_patterns := []
    checkpoint_wait_url := none
    apply_button_selector := "button:has-text('Apply now'), #indeedApplyButton, .jobsearch-IndeedApplyButton-newDesign"
    form_submit_selector := "button:has-text('Submit'), button:has-text('Submit your application')"
    form_next_selector := "button:has-text('Continue'), button:has-text('Next')"
    platform_name := "indeed"
    applied_note := "Submitted via Indeed Apply"
    headless := false
    two_step_login := true }

def PLATFORM_CONFIG : List (String × PlatformCfg) :=
  [("linkedin", linkedinConfig), ("indeed", indeedConfig)]

/-! ### Platform classification -/

/-- The URL routing of `browser_apply.apply` (lines 233-243):
lower-case the job URL, test `linkedin.com`, then `indeed.com`,
otherwise `generic`. -/
def applyClassify (url : String) : String :=
  let u := pyLower url
  if strContains u "linkedin.com" then "linkedin"
  else if strContains u "indeed.com" then "indeed"
  else "generic"

/-- The grouping key of `scheduler.apply_to_jobs` (lines 51-57), the same
lower-case substring tests in the same order. -/
def schedClassify (url : String) : String :=
  let u := pyLower url
  if strContains u "linkedin.com" then "linkedin"
  else if strContains u "indeed.com" then "indeed"
  else "generic"

/-! ### Exceptions

Playwright raises `TimeoutError` (a subclass of `Exception`); the apply
entry points distinguish exactly `except PWTimeout` from `except Exception`. -/

inductive Exc where
  | pwTimeout (msg : String)
  | other (msg : String)
deriving DecidableEq

/-! ### One-shot `apply`, pre-browser part (lines 233-250)

`apply` classifies the URL; `generic` returns a failure Result before the
dry-run test; dry-run returns a synthetic success; otherwise a browser
session is opened for the classified platform. `PreOutcome.result r` means
`apply` returned `r` without opening any browser session; `.openSession p`
means it proceeds to `sync_playwright` for platform `p`. -/

inductive PreOutcome where
  | result (r : Result)
  | openSession (platform : String)
deriving DecidableEq

def apply_pre (dry_run : Bool) (url ts date : String) : PreOutcome :=
  let platform := applyClassify url
  if platform = "generic" then
    .result (_make_result false "" "Unsupported platform — apply manually via Job_URL" "generic" date)
  else if dry_run then
    .result (_make_result true (_timestamp_id ts) "Dry run — no actual application sent" platform date)
  else
    .openSession platform

/-! ### The multi-step form (`_fill_and_submit`, lines 138-197) -/

/-- What the driver observes on one form page: whether a file-upload input,
a cover-letter textarea, a submit control, and a next/continue control are
present/visible. Upload and cover-letter are page side effects only; they
do not influence control flow in the source. -/
structure FormStep where
  file_input_present : Bool
  cover_visible : Bool
  submit_visible : Bool
  next_visible : Bool
deriving DecidableEq

/-- The page as the driver sees it: visibility of the apply button, and the
form page shown after `k` clicks of next/continue. -/
structure FormPage where
  apply_visible : Bool
  steps : Nat → FormStep

/-- `max_steps = 10` in `_fill_and_submit`. -/
def max_steps : Nat := 10

/-- The `for _ in range(max_steps)` loop of `_fill_and_submit`
(lines 168-197). `fuel` is the number of loop iterations still allowed,
`k` the index of the form page currently shown. Exhausting the range and
breaking out both fall through to the same failure Result (line 197). -/
def form_loop (cfg : PlatformCfg) (steps : Nat → FormStep) (ts date : String) :
    Nat → Nat → Result
  | 0, _ =>
      _make_result false "" "Could not complete apply form — check job manually"
        cfg.platform_name date
  | fuel + 1, k =>
      let st := steps k
      if st.submit_visible then
        _make_result true (_timestamp_id ts) cfg.applied_note cfg.platform_name date
      else if st.next_visible then
        form_loop cfg steps ts date fuel (k + 1)
      else
        _make_result false "" "Could not complete apply form — check job manually"
          cfg.platform_name date

/-- `_fill_and_submit` (lines 138-197): bail out if the apply button is not
visible, otherwise run the bounded form loop from page 0. -/
def _fill_and_submit (cfg : PlatformCfg) (page : FormPage) (ts date : String) : Result :=
  if !page.apply_visible then
    _make_result false "" "No apply button found — may require external application"
      cfg.platform_name date
  else
    form_loop cfg page.steps ts date max_steps 0

/-! ### `apply_with_session` (lines 202-221)

`fill` is the outcome of the `_fill_and_submit` call: a Result, or a raised
exception. `except PWTimeout` is tried first, then `except Exception`. -/

def apply_with_session (platform date : String) (fill : Except Exc Result) : Result :=
  match fill with
  | .ok r => r
  | .error (.pwTimeout m) => _make_result false "" ("Timeout: " ++ m) platform date
  | .error (.other m) => _make_result false "" ("Error: " ++ m) platform date

/-! ### One-shot `apply`, browser part (lines 252-271) -/

/-- Consume the outcome of the next `browser.close()` call from a supplied
list (`none` = close returned normally, `some e` = close raised `e`). -/
def nextClose : List (Option Exc) → Option Exc × List (Option Exc)
  | [] => (none, [])
  | c :: rest => (c, rest)

/-- The `with sync_playwright` block of the one-shot `apply`
(lines 252-271): `login` is the outcome of `_login`, `fill` the outcome of
`_fill_and_submit`, `closes` the outcomes of successive `browser.close()`
calls. The try body runs login, fill, then close (line 259) and returns the
fill result; a `PWTimeout` escaping the body is handled by an unprotected
close (line 263) followed by a timeout failure Result; any other exception
is handled by a suppressed close (lines 267-270) followed by an error
failure Result. An exception raised inside the `except PWTimeout` handler
propagates out of `apply`. -/
def apply_browse (platform date : String) (login : Except Exc Unit)
    (fill : Except Exc Result) (closes : List (Option Exc)) : Except Exc Result :=
  let body : Except Exc Result × List (Option Exc) :=
    match login with
    | .error e => (.error e, closes)
    | .ok _ =>
      match fill with
      | .error e => (.error e, closes)
      | .ok r =>
        let (c, rest) := nextClose closes
        match c with
        | some e => (.error e, rest)
        | none => (.ok r, rest)
  match body with
  | (.ok r, _) => .ok r
  | (.error (.pwTimeout m), rest) =>
    let (c, _) := nextClose rest
    match c with
    | some e2 => .error e2
    | none => .ok (_make_result false "" ("Timeout: " ++ m) platform date)
  | (.error (.other m), _) =>
    .ok (_make_result false "" ("Error: " ++ m) platform date)

/-! ### `platform_session` (lines 76-100) -/

/-- How the body of the `with platform_session(...)` block ends: it returns
a value, an exception escapes it, or the surrounding generator is cancelled
(operator interrupt). In all three cases Python runs the `finally` block. -/
inductive BodyEnd (α : Type) where
  | ret (a : α)
  | raised (e : Exc)
  | cancelled
deriving DecidableEq

/-- `try: browser.close() except Exception: pass` (lines 97-100). -/
def closeQuietly (close : Except Exc Unit) : Except Exc Unit :=
  match close with
  | .error _ => .ok ()
  | .ok u => .ok u

/-- `platform_session(platform)` (lines 76-100): launch, login, yield to the
body, and in a `finally` block close the browser with failures suppressed.
Returns the overall outcome of the `with` block together with a flag
recording whether `browser.close()` was invoked on that exit path. A close
failure never replaces the outcome because `closeQuietly` cannot raise. -/
def platform_session (login : Except Exc Unit) (body : BodyEnd Result)
    (close : Except Exc Unit) : BodyEnd Result × Bool :=
  match login with
  | .error e =>
    match closeQuietly close with
    | .error e2 => (.raised e2, true)
    | .ok _ => (.raised e, true)
  | .ok _ =>
    match body with
    | .ret r =>
      match closeQuietly close with
      | .error e2 => (.raised e2, true)
      | .ok _ => (.ret r, true)
    | .raised e =>
      match closeQuietly close with
      | .error e2 => (.raised e2, true)
      | .ok _ => (.raised e, true)
    | .cancelled =>
      match closeQuietly close with
      | .error e2 => (.raised e2, true)
      | .ok _ => (.cancelled, true)

/-! ### Scheduler (`scheduler.py`) -/

/-- One row of the pending-jobs sheet, reduced to the fields the apply flow
reads. -/
structure Job where
  Job_URL : String
  Company : String
  Position : String
deriving DecidableEq

/-- `by_platform[key].append(job)` on a `defaultdict(list)`: insertion
order of keys is preserved, a new key goes to the end. -/
def addToGroup (groups : List (String × List Job)) (key : String) (j : Job) :
    List (String × List Job) :=
  match groups with
  | [] => [(key, [j])]
  | (k, js) :: rest =>
    if k = key then (k, js ++ [j]) :: rest
    else (k, js) :: addToGroup rest key j

/-- The grouping loop of `apply_to_jobs` (lines 49-57). -/
def groupByPlatform (batch : List Job) : List (String × List Job) :=
  batch.foldl (fun gs j => addToGroup gs (schedClassify j.Job_URL) j) []

/-- The sequence of jobs attempted by one run of `apply_to_jobs`
(lines 43-61): truncate the pending list to `MAX_APPLICATIONS_PER_RUN`,
group by platform, then iterate the groups in insertion order, attempting
each group's jobs in order. -/
def apply_to_jobs_attempts (pending : List Job) (max_per_run : Nat) : List Job :=
  ((groupByPlatform (pending.take max_per_run)).map Prod.snd).flatten

/-- Which post-processing collaborators raise on this run:
`sheets.mark_applied`, `database.log_application`,
`gmail_notify.send_application_email`. -/
structure CollabFaults where
  mark_applied_raises : Bool
  log_application_raises : Bool
  send_email_raises : Bool
deriving DecidableEq

/-- `scheduler._process_single_job` (lines 94-114): sheet writeback and
database log run unprotected; only the email send is wrapped in
`try: ... except Exception: log warning`. The Result is read, never
written. -/
def _process_single_job (f : CollabFaults) (r : Result) : Except Exc Result :=
  match (if f.mark_applied_raises then Except.error (Exc.other "mark_applied failed")
         else Except.ok ()) with
  | .error e => .error e
  | .ok _ =>
    match (if f.log_application_raises then Except.error (Exc.other "log_application failed")
           else Except.ok ()) with
    | .error e => .error e
    | .ok _ =>
      match closeQuietly (if f.send_email_raises then .error (.other "SMTP error") else .ok ()) with
      | .error e => .error e
      | .ok _ => .ok r

/-- The per-job loop of `_apply_platform_batch` (lines 72-91): apply to the
job, then post-process; an exception escaping `_process_single_job` aborts
the remaining jobs. Returns the (job, Result) pairs actually produced, in
order, and the escaping exception if any. -/
def batch_loop (f : CollabFaults) (applyFn : Job → Result) :
    List Job → List (Job × Result) × Option Exc
  | [] => ([], none)
  | j :: rest =>
    let r := applyFn j
    match _process_single_job f r with
    | .error e => ([(j, r)], some e)
    | .ok _ =>
      let (tl, err) := batch_loop f applyFn rest
      ((j, r) :: tl, err)

/-! ### Every `_make_result` call site in `browser_apply.py` -/

/-- The nine `_make_result` call sites (lines 154, 189, 197, 218, 221, 243,
250, 264, 271), with `ts`/`date` the clock readings, `e` the text of a
caught exception, and `cfg` the platform config in scope at the site. -/
def resultCallSites (ts date e : String) (cfg : PlatformCfg) : List Result :=
  [ _make_result false "" "No apply button found — may require external application"
      cfg.platform_name date,
    _make_result true (_timestamp_id ts) cfg.applied_note cfg.platform_name date,
    _make_result false "" "Could not complete apply form — check job manually"
      cfg.platform_name date,
    _make_result false "" ("Timeout: " ++ e) cfg.platform_name date,
    _make_result false "" ("Error: " ++ e) cfg.platform_name date,
    _make_result false "" "Unsupported platform — apply manually via Job_URL" "generic" date,
    _make_result true (_timestamp_id ts) "Dry run — no actual application sent"
      cfg.platform_name date,
    _make_result false "" ("Timeout: " ++ e) cfg.platform_name date,
    _make_result false "" ("Error: " ++ e) cfg.platform_name date ]

/-! ## Claim theorems -/

/-- Claim C2 (confirmed): platform classification is a pure total function
of the job URL — `linkedin` exactly when the URL contains `linkedin.com`
case-insensitively, else `indeed` when it contains `indeed.com`
case-insensitively, else `generic` — and the one-shot apply entry point and
the batch grouping in apply_to_jobs compute the same classification. -/
theorem C2_platform_classification (url : String) :
    applyClassify url = schedClassify url ∧
    (applyClassify url = "linkedin" ↔ containsCI url "linkedin.com" = true) ∧
    (applyClassify url = "indeed" ↔
      (containsCI url "linkedin.com" = false ∧ containsCI url "indeed.com" = true)) ∧
    (applyClassify url = "generic" ↔
      (containsCI url "linkedin.com" = false ∧ containsCI url "indeed.com" = false)) := by
  unfold applyClassify schedClassify containsCI
  by_cases h1 : strContains (pyLower url) "linkedin.com" = true <;>
    by_cases h2 : strContains (pyLower url) "indeed.com" = true <;>
    simp_all

/-- Claim C3, counterexample: under dry-run, a job whose URL is on no
supported platform still returns a failure Result — the `generic` branch of
`apply` returns before the dry-run test, so the claim's "for every job ...
success" is false at this input. -/
theorem C3_counterexample :
    apply_pre true "https://greenhouse.io/jobs/9" "20250101120000" "2025-01-01" =
      PreOutcome.result
        (_make_result false "" "Unsupported platform — apply manually via Job_URL"
          "generic" "2025-01-01") ∧
    (_make_result false "" "Unsupported platform — apply manually via Job_URL"
      "generic" "2025-01-01").status ≠ "Applied" :=
  ⟨rfl, by decide⟩

/-- Claim C3 (amended): for every job classified `linkedin` or `indeed`,
when the dry-run flag is set, `apply` returns a success Result (status
`Applied`) whose application id starts with `AUTO_`, without opening a
browser session (the `PreOutcome.result` constructor marks a return before
`sync_playwright` is entered). -/
theorem C3_dry_run (url ts date : String) (h : applyClassify url ≠ "generic") :
    apply_pre true url ts date =
      PreOutcome.result
        (_make_result true (_timestamp_id ts) "Dry run — no actual application sent"
          (applyClassify url) date) ∧
    (_make_result true (_timestamp_id ts) "Dry run — no actual application sent"
      (applyClassify url) date).status = "Applied" ∧
    (_make_result true (_timestamp_id ts) "Dry run — no actual application sent"
      (applyClassify url) date).application_id = "AUTO_" ++ ts := by
  refine ⟨?_, rfl, rfl⟩
  simp [apply_pre, h]

/-- Witness for C3: a dry-run apply to a concrete LinkedIn job URL. -/
theorem C3_dry_run_witness :
    apply_pre true "https://www.linkedin.com/jobs/view/1" "20250101120000" "2025-01-01" =
      PreOutcome.result
        (_make_result true (_timestamp_id "20250101120000")
          "Dry run — no actual application sent"
          (applyClassify "https://www.linkedin.com/jobs/view/1") "2025-01-01") ∧
    (_make_result true (_timestamp_id "20250101120000")
      "Dry run — no actual application sent"
      (applyClassify "https://www.linkedin.com/jobs/view/1") "2025-01-01").status = "Applied" ∧
    (_make_result true (_timestamp_id "20250101120000")
      "Dry run — no actual application sent"
      (applyClassify "https://www.linkedin.com/jobs/view/1") "2025-01-01").application_id =
        "AUTO_" ++ "20250101120000" :=
  C3_dry_run "https://www.linkedin.com/jobs/view/1" "20250101120000" "2025-01-01" (by decide)

/-- Claim C4 (confirmed): for every job classified `generic`, with or
without dry-run, `apply` returns a failure Result (status `Failed`,
platform `generic`) whose note mentions manual application, and no browser
session is opened (`PreOutcome.result`). -/
theorem C4_generic_jobs_fail (dry_run : Bool) (url ts date : String)
    (h : applyClassify url = "generic") :
    apply_pre dry_run url ts date =
      PreOutcome.result
        (_make_result false "" "Unsupported platform — apply manually via Job_URL"
          "generic" date) ∧
    (_make_result false "" "Unsupported platform — apply manually via Job_URL"
      "generic" date).status = "Failed" ∧
    (_make_result false "" "Unsupported platform — apply manually via Job_URL"
      "generic" date).platform = "generic" ∧
    strContains "Unsupported platform — apply manually via Job_URL" "manually" = true := by
  refine ⟨?_, rfl, rfl, by decide⟩
  simp [apply_pre, h]

/-- Witness for C4: a concrete greenhouse.io job URL in dry-run mode. -/
theorem C4_generic_jobs_fail_witness :
    apply_pre true "https://greenhouse.io/jobs/9" "20250101120001" "2025-01-02" =
      PreOutcome.result
        (_make_result false "" "Unsupported platform — apply manually via Job_URL"
          "generic" "2025-01-02") ∧
    (_make_result false "" "Unsupported platform — apply manually via Job_URL"
      "generic" "2025-01-02").status = "Failed" ∧
    (_make_result false "" "Unsupported platform — apply manually via Job_URL"
      "generic" "2025-01-02").platform = "generic" ∧
    strContains "Unsupported platform — apply manually via Job_URL" "manually" = true :=
  C4_generic_jobs_fail true "https://greenhouse.io/jobs/9" "20250101120001" "2025-01-02"
    (by decide)

/-- Claim C5 (confirmed): in any iteration of the multi-step form loop with
at least one iteration of budget left, if the submit control and the
next/continue control are both visible on the current page, the driver
returns the success Result (timestamp-derived id, platform success note)
instead of advancing. -/
theorem C5_submit_checked_before_next (cfg : PlatformCfg) (steps : Nat → FormStep)
    (ts date : String) (fuel k : Nat)
    (hs : (steps k).submit_visible = true) (_hn : (steps k).next_visible = true) :
    form_loop cfg steps ts date (fuel + 1) k =
      _make_result true (_timestamp_id ts) cfg.applied_note cfg.platform_name date := by
  simp [form_loop, hs]

/-- Witness for C5: a page showing both submit and next on step 0 with the
full 10-iteration budget, under the LinkedIn config. -/
theorem C5_submit_checked_before_next_witness :
    form_loop linkedinConfig
      (fun _ => { file_input_present := false, cover_visible := false,
                  submit_visible := true, next_visible := true })
      "20250101120000" "2025-01-01" 10 0 =
      _make_result true (_timestamp_id "20250101120000") linkedinConfig.applied_note
        linkedinConfig.platform_name "2025-01-01" :=
  C5_submit_checked_before_next linkedinConfig
    (fun _ => { file_input_present := false, cover_visible := false,
                submit_visible := true, next_visible := true })
    "20250101120000" "2025-01-01" 9 0 rfl rfl

/-- If, for `fuel` consecutive pages starting at `k`, submit is never
visible and next always is, the loop consumes its whole budget and falls
through to the Stuck failure Result. -/
theorem form_loop_all_next (cfg : PlatformCfg) (steps : Nat → FormStep) (ts date : String) :
    ∀ fuel k,
      (∀ i, i < fuel →
        (steps (k + i)).submit_visible = false ∧ (steps (k + i)).next_visible = true) →
      form_loop cfg steps ts date fuel k =
        _make_result false "" "Could not complete apply form — check job manually"
          cfg.platform_name date := by
  intro fuel
  induction fuel with
  | zero => intro k _; rfl
  | succ n ih =>
    intro k h
    have h0 := h 0 (Nat.succ_pos n)
    simp only [Nat.add_zero] at h0
    have hrest : ∀ i, i < n →
        (steps (k + 1 + i)).submit_visible = false ∧ (steps (k + 1 + i)).next_visible = true := by
      intro i hi
      have := h (i + 1) (Nat.succ_lt_succ hi)
      have harith : k + (i + 1) = k + 1 + i := by omega
      rwa [harith] at this
    simp [form_loop, h0.1, h0.2, ih (k + 1) hrest]

/-- Claim C6 (confirmed): the form loop runs at most `max_steps = 10`
iterations — if every one of the 10 pages reachable from the start shows
next but never submit, the attempt ends in the Stuck failure Result — and
whenever neither submit nor next is visible on the current page the loop
exits at once with the same "Could not complete apply form — check job
manually" failure Result, whatever budget remains. -/
theorem C6_form_loop_bounded (cfg : PlatformCfg) (steps : Nat → FormStep) (ts date : String) :
    ((∀ i, i < max_steps →
        (steps i).submit_visible = false ∧ (steps i).next_visible = true) →
      form_loop cfg steps ts date max_steps 0 =
        _make_result false "" "Could not complete apply form — check job manually"
          cfg.platform_name date) ∧
    (∀ fuel k, (steps k).submit_visible = false → (steps k).next_visible = false →
      form_loop cfg steps ts date (fuel + 1) k =
        _make_result false "" "Could not complete apply form — check job manually"
          cfg.platform_name date) := by
  constructor
  · intro h
    exact form_loop_all_next cfg steps ts date max_steps 0 (fun i hi => by
      simpa using h i hi)
  · intro fuel k hs hn
    simp [form_loop, hs, hn]

/-- Witness for C6: under the LinkedIn config, a form that always shows
only next ends Stuck after the 10-step budget, and a form showing neither
control on step 0 ends Stuck immediately with the full budget remaining. -/
theorem C6_form_loop_bounded_witness :
    (form_loop linkedinConfig
        (fun _ => { file_input_present := false, cover_visible := false,
                    submit_visible := false, next_visible := true })
        "20250101120000" "2025-01-01" max_steps 0 =
      _make_result false "" "Could not complete apply form — check job manually"
        linkedinConfig.platform_name "2025-01-01") ∧
    (form_loop linkedinConfig
        (fun _ => { file_input_present := false, cover_visible := false,
                    submit_visible := false, next_visible := false })
        "20250101120000" "2025-01-01" 10 0 =
      _make_result false "" "Could not complete apply form — check job manually"
        linkedinConfig.platform_name "2025-01-01") :=
  ⟨(C6_form_loop_bounded linkedinConfig
      (fun _ => { file_input_present := false, cover_visible := false,
                  submit_visible := false, next_visible := true })
      "20250101120000" "2025-01-01").1 (fun _ _ => ⟨rfl, rfl⟩),
   (C6_form_loop_bounded linkedinConfig
      (fun _ => { file_input_present := false, cover_visible := false,
                  submit_visible := false, next_visible := false })
      "20250101120000" "2025-01-01").2 9 0 rfl rfl⟩

/-! ## Grouping lemmas for the batch run -/

/-- The job list stored under key `p` in the grouping dict (`[]` if the key
is absent). -/
def findGroup (p : String) : List (String × List Job) → List Job
  | [] => []
  | (k, js) :: rest => if k = p then js else findGroup p rest

theorem findGroup_addToGroup (gs : List (String × List Job)) (key p : String) (j : Job) :
    findGroup p (addToGroup gs key j) =
      if key = p then findGroup p gs ++ [j] else findGroup p gs := by
  induction gs with
  | nil =>
    by_cases h : key = p <;> simp [addToGroup, findGroup, h]
  | cons hd tl ih =>
    obtain ⟨k, js⟩ := hd
    by_cases hk : k = key
    · subst hk
      by_cases hp : k = p <;> simp [addToGroup, findGroup, hp]
    · by_cases hp : k = p
      · subst hp
        have hkp : ¬key = k := fun h => hk h.symm
        simp [addToGroup, findGroup, hk, hkp]
      · simp [addToGroup, findGroup, hk, hp, ih]

theorem findGroup_foldl (batch : List Job) :
    ∀ (gs : List (String × List Job)) (p : String),
      findGroup p (batch.foldl (fun gs j => addToGroup gs (schedClassify j.Job_URL) j) gs) =
        findGroup p gs ++ batch.filter (fun j => schedClassify j.Job_URL == p) := by
  induction batch with
  | nil => intro gs p; simp
  | cons j tl ih =>
    intro gs p
    simp only [List.foldl_cons, List.filter_cons]
    rw [ih, findGroup_addToGroup]
    by_cases h : schedClassify j.Job_URL = p
    · simp [h]
    · simp [h]

/-- Within one batch, the group stored for platform `p` is exactly the
batch's jobs classified to `p`, in their original order. -/
theorem findGroup_groupByPlatform (batch : List Job) (p : String) :
    findGroup p (groupByPlatform batch) =
      batch.filter (fun j => schedClassify j.Job_URL == p) := by
  simpa [groupByPlatform, findGroup] using findGroup_foldl batch [] p

theorem flatten_addToGroup (gs : List (String × List Job)) (key : String) (j : Job) :
    List.Perm ((addToGroup gs key j).map Prod.snd).flatten
      ((gs.map Prod.snd).flatten ++ [j]) := by
  induction gs with
  | nil => simp [addToGroup]
  | cons hd tl ih =>
    obtain ⟨k, js⟩ := hd
    by_cases hk : k = key
    · subst hk
      have ha : addToGroup ((k, js) :: tl) k j = (k, js ++ [j]) :: tl := by
        simp [addToGroup]
      rw [ha]
      simp only [List.map_cons, List.flatten_cons]
      have h1 : (js ++ [j]) ++ (tl.map Prod.snd).flatten =
          js ++ ([j] ++ (tl.map Prod.snd).flatten) := by
        simp
      have h2 : (js ++ (tl.map Prod.snd).flatten) ++ [j] =
          js ++ ((tl.map Prod.snd).flatten ++ [j]) := by
        simp
      rw [h1, h2]
      exact List.Perm.append_left js List.perm_append_comm
    · have ha : addToGroup ((k, js) :: tl) key j = (k, js) :: addToGroup tl key j := by
        simp [addToGroup, hk]
      rw [ha]
      simp only [List.map_cons, List.flatten_cons]
      have h2 : (js ++ (tl.map Prod.snd).flatten) ++ [j] =
          js ++ ((tl.map Prod.snd).flatten ++ [j]) := by
        simp
      rw [h2]
      exact List.Perm.append_left js ih

theorem flatten_foldl_perm (batch : List Job) :
    ∀ gs : List (String × List Job),
      List.Perm
        (((batch.foldl (fun gs j => addToGroup gs (schedClassify j.Job_URL) j) gs).map
          Prod.snd).flatten)
        ((gs.map Prod.snd).flatten ++ batch) := by
  induction batch with
  | nil => intro gs; simp
  | cons j tl ih =>
    intro gs
    simp only [List.foldl_cons]
    refine (ih (addToGroup gs (schedClassify j.Job_URL) j)).trans ?_
    refine (List.Perm.append_right tl (flatten_addToGroup gs _ j)).trans ?_
    have heq : ((gs.map Prod.snd).flatten ++ [j]) ++ tl =
        (gs.map Prod.snd).flatten ++ j :: tl := by
      simp
    rw [heq]

/-- One batch run attempts exactly the truncated pending list, up to
reordering by platform group. -/
theorem attempts_perm (pending : List Job) (m : Nat) :
    List.Perm (apply_to_jobs_attempts pending m) (pending.take m) := by
  simpa [apply_to_jobs_attempts, groupByPlatform] using
    flatten_foldl_perm (pending.take m) []

/-- Claim C7 (amended): one batch run makes exactly
`min (pending.length) MAX_APPLICATIONS_PER_RUN` apply attempts — each job
of the truncated batch exactly once — with jobs attempted platform group by
platform group (groups in first-appearance order), and inside each platform
group in the order supplied by the source; each attempt's Result is
produced before the next attempt begins. -/
theorem C7_batch_count_and_group_order (pending : List Job) (max_per_run : Nat) :
    List.Perm (apply_to_jobs_attempts pending max_per_run) (pending.take max_per_run) ∧
    (apply_to_jobs_attempts pending max_per_run).length = min pending.length max_per_run ∧
    (∀ p, findGroup p (groupByPlatform (pending.take max_per_run)) =
      (pending.take max_per_run).filter (fun j => schedClassify j.Job_URL == p)) := by
  refine ⟨attempts_perm pending max_per_run, ?_, fun p => findGroup_groupByPlatform _ p⟩
  rw [(attempts_perm pending max_per_run).length_eq, List.length_take, Nat.min_comm]

/-- Claim C7, counterexample: with a LinkedIn job, then a generic job, then
another LinkedIn job pending, the batch attempts the two LinkedIn jobs
consecutively — not in the order the source supplied the jobs. -/
theorem C7_counterexample :
    apply_to_jobs_attempts
      [⟨"https://www.linkedin.com/jobs/view/1", "A", "P1"⟩,
       ⟨"https://greenhouse.io/jobs/9", "B", "P2"⟩,
       ⟨"https://www.linkedin.com/jobs/view/2", "C", "P3"⟩] 5 =
      [⟨"https://www.linkedin.com/jobs/view/1", "A", "P1"⟩,
       ⟨"https://www.linkedin.com/jobs/view/2", "C", "P3"⟩,
       ⟨"https://greenhouse.io/jobs/9", "B", "P2"⟩] ∧
    apply_to_jobs_attempts
      [⟨"https://www.linkedin.com/jobs/view/1", "A", "P1"⟩,
       ⟨"https://greenhouse.io/jobs/9", "B", "P2"⟩,
       ⟨"https://www.linkedin.com/jobs/view/2", "C", "P3"⟩] 5 ≠
      [⟨"https://www.linkedin.com/jobs/view/1", "A", "P1"⟩,
       ⟨"https://greenhouse.io/jobs/9", "B", "P2"⟩,
       ⟨"https://www.linkedin.com/jobs/view/2", "C", "P3"⟩] :=
  ⟨by decide, by decide⟩

/-! ## Post-processing lemmas -/

/-- With the sheet writeback and the database log succeeding,
post-processing returns the Result unchanged whether or not the email send
raises (the email call is the only protected one). -/
theorem _process_single_job_ok (f : CollabFaults) (r : Result)
    (hm : f.mark_applied_raises = false) (hl : f.log_application_raises = false) :
    _process_single_job f r = .ok r := by
  cases hse : f.send_email_raises <;>
    simp [_process_single_job, hm, hl, hse, closeQuietly]

/-- Under the same conditions the whole batch loop processes every job in
order and no exception escapes. -/
theorem batch_loop_ok (f : CollabFaults) (applyFn : Job → Result)
    (hm : f.mark_applied_raises = false) (hl : f.log_application_raises = false) :
    ∀ jobs : List Job,
      batch_loop f applyFn jobs = (jobs.map fun j => (j, applyFn j), none) := by
  intro jobs
  induction jobs with
  | nil => rfl
  | cons j tl ih => simp [batch_loop, _process_single_job_ok f _ hm hl, ih]

/-- Claim C8, counterexample: a failure raised by the audit-log append
(`database.log_application`, not wrapped in any try/except) escapes
`_process_single_job` after the first job and prevents the second job in
the batch from being processed. -/
theorem C8_counterexample :
    (batch_loop { mark_applied_raises := false, log_application_raises := true, send_email_raises := false }
      (fun _ => _make_result true (_timestamp_id "20250101120000")
        "Submitted via LinkedIn Easy Apply" "linkedin" "2025-01-01")
      [⟨"https://www.linkedin.com/jobs/view/1", "A", "P1"⟩,
       ⟨"https://www.linkedin.com/jobs/view/2", "B", "P2"⟩]).2 =
      some (Exc.other "log_application failed") ∧
    (batch_loop { mark_applied_raises := false, log_application_raises := true, send_email_raises := false }
      (fun _ => _make_result true (_timestamp_id "20250101120000")
        "Submitted via LinkedIn Easy Apply" "linkedin" "2025-01-01")
      [⟨"https://www.linkedin.com/jobs/view/1", "A", "P1"⟩,
       ⟨"https://www.linkedin.com/jobs/view/2", "B", "P2"⟩]).1 =
      [(⟨"https://www.linkedin.com/jobs/view/1", "A", "P1"⟩,
        _make_result true (_timestamp_id "20250101120000")
          "Submitted via LinkedIn Easy Apply" "linkedin" "2025-01-01")] :=
  ⟨rfl, rfl⟩

/-- Claim C8 (amended): a failure raised by the email notifier during
post-processing of a successful apply does not alter the already-produced
Result and does not prevent the next job in the batch from being processed;
a failure raised by the audit-log append (or the sheet writeback), by
contrast, propagates and aborts the rest of the batch. -/
theorem C8_email_failure_harmless (f : CollabFaults) (r : Result)
    (applyFn : Job → Result) (jobs : List Job)
    (hm : f.mark_applied_raises = false) (hl : f.log_application_raises = false) :
    _process_single_job f r = .ok r ∧
    batch_loop f applyFn jobs = (jobs.map fun j => (j, applyFn j), none) :=
  ⟨_process_single_job_ok f r hm hl, batch_loop_ok f applyFn hm hl jobs⟩

/-- Witness for C8: a raising email notifier on a two-job batch. -/
theorem C8_email_failure_harmless_witness :
    _process_single_job { mark_applied_raises := false, log_application_raises := false, send_email_raises := true }
      (_make_result true (_timestamp_id "20250101120000")
        "Submitted via LinkedIn Easy Apply" "linkedin" "2025-01-01") =
      .ok (_make_result true (_timestamp_id "20250101120000")
        "Submitted via LinkedIn Easy Apply" "linkedin" "2025-01-01") ∧
    batch_loop { mark_applied_raises := false, log_application_raises := false, send_email_raises := true }
      (fun _ => _make_result true (_timestamp_id "20250101120000")
        "Submitted via LinkedIn Easy Apply" "linkedin" "2025-01-01")
      [⟨"https://www.linkedin.com/jobs/view/1", "A", "P1"⟩,
       ⟨"https://www.linkedin.com/jobs/view/2", "B", "P2"⟩] =
      ([⟨"https://www.linkedin.com/jobs/view/1", "A", "P1"⟩,
        ⟨"https://www.linkedin.com/jobs/view/2", "B", "P2"⟩].map
        (fun j => (j, _make_result true (_timestamp_id "20250101120000")
          "Submitted via LinkedIn Easy Apply" "linkedin" "2025-01-01")), none) :=
  C8_email_failure_harmless
    { mark_applied_raises := false, log_application_raises := false, send_email_raises := true }
    (_make_result true (_timestamp_id "20250101120000")
      "Submitted via LinkedIn Easy Apply" "linkedin" "2025-01-01")
    (fun _ => _make_result true (_timestamp_id "20250101120000")
      "Submitted via LinkedIn Easy Apply" "linkedin" "2025-01-01")
    [⟨"https://www.linkedin.com/jobs/view/1", "A", "P1"⟩,
     ⟨"https://www.linkedin.com/jobs/view/2", "B", "P2"⟩] rfl rfl

/-- Claim C9, counterexample: on the one-shot apply's success path the
`browser.close()` call sits inside the `try` block, so when close raises,
the generic handler replaces the already-computed success Result with a
failure Result — a close failure does mask the Result of the job just
processed. -/
theorem C9_counterexample :
    apply_browse "linkedin" "2025-01-01" (Except.ok ())
      (Except.ok (_make_result true (_timestamp_id "20250101120000")
        "Submitted via LinkedIn Easy Apply" "linkedin" "2025-01-01"))
      [some (Exc.other "close failed")] =
      Except.ok (_make_result false "" ("Error: " ++ "close failed")
        "linkedin" "2025-01-01") ∧
    _make_result false "" ("Error: " ++ "close failed") "linkedin" "2025-01-01" ≠
      _make_result true (_timestamp_id "20250101120000")
        "Submitted via LinkedIn Easy Apply" "linkedin" "2025-01-01" :=
  ⟨rfl, by decide⟩

/-- Claim C9 (amended): for the shared `platform_session` scope the browser
close runs on every exit path (normal completion, exception, cancellation)
and a close failure is suppressed and never changes the block's outcome;
for the one-shot apply's own session, by contrast, a close failure on the
success path is caught by the generic handler and replaces the Result with
a failure, and a close failure raised inside the timeout handler propagates
out of `apply`. -/
theorem C9_session_close (login : Except Exc Unit) (body : BodyEnd Result)
    (c1 c2 : Except Exc Unit) :
    platform_session login body c1 = platform_session login body c2 ∧
    (platform_session login body c1).2 = true ∧
    (∀ (platform date m : String) (r : Result),
      apply_browse platform date (.ok ()) (.ok r) [some (.other m)] =
        .ok (_make_result false "" ("Error: " ++ m) platform date)) ∧
    (∀ (platform date m : String) (e : Exc),
      apply_browse platform date (.ok ()) (.error (.pwTimeout m)) [some e] =
        .error e) := by
  refine ⟨?_, ?_, fun _ _ _ _ => rfl, fun _ _ _ _ => rfl⟩
  · cases login with
    | error e => cases c1 <;> cases c2 <;> rfl
    | ok u => cases body <;> cases c1 <;> cases c2 <;> rfl
  · cases login with
    | error e => cases c1 <;> rfl
    | ok u => cases body <;> cases c1 <;> rfl

/-- Claim C1, counterexample: one execution path of a one-shot apply
attempt produces no Result at all — when `_fill_and_submit` raises
`PWTimeout` and the `browser.close()` inside the `except PWTimeout` handler
(line 263, not wrapped in try/except) itself raises, the close exception
propagates out of `apply` to the caller. -/
theorem C1_counterexample :
    apply_browse "linkedin" "2025-01-01" (Except.ok ())
      (Except.error (Exc.pwTimeout "Timeout 30000ms exceeded"))
      [some (Exc.other "close failed")] =
      Except.error (Exc.other "close failed") :=
  rfl

/-- Claim C1 (amended): each apply attempt produces exactly one Result.
`apply_with_session` returns a Result on every outcome of the driven form:
a timeout becomes a failure Result noted `Timeout:`, any other exception
(element-not-found, authentication failure) a failure Result noted
`Error:`; an unsupported platform becomes the manual-apply failure Result
before any session is opened; and the one-shot apply returns exactly one
Result whenever `browser.close()` itself does not raise. The sole exception
to the invariant is a close failure inside the one-shot apply's timeout
handler, which propagates. -/
theorem C1_one_result_per_attempt :
    (∀ (platform date : String) (r : Result),
      apply_with_session platform date (.ok r) = r) ∧
    (∀ platform date m : String,
      (apply_with_session platform date (.error (.pwTimeout m))).status = "Failed" ∧
      (apply_with_session platform date (.error (.pwTimeout m))).notes = "Timeout: " ++ m) ∧
    (∀ platform date m : String,
      (apply_with_session platform date (.error (.other m))).status = "Failed" ∧
      (apply_with_session platform date (.error (.other m))).notes = "Error: " ++ m) ∧
    (∀ (platform date : String) (login : Except Exc Unit) (fill : Except Exc Result),
      ∃ r : Result, apply_browse platform date login fill [none, none] = .ok r) ∧
    (∀ (dry_run : Bool) (url ts date : String), applyClassify url = "generic" →
      ∃ r : Result, apply_pre dry_run url ts date = .result r ∧ r.status = "Failed") := by
  refine ⟨fun _ _ _ => rfl, fun _ _ _ => ⟨rfl, rfl⟩, fun _ _ _ => ⟨rfl, rfl⟩, ?_, ?_⟩
  · intro platform date login fill
    cases login with
    | error e => cases e <;> exact ⟨_, rfl⟩
    | ok u =>
      cases fill with
      | ok r => exact ⟨r, rfl⟩
      | error e => cases e <;> exact ⟨_, rfl⟩
  · intro dry_run url ts date h
    exact ⟨_make_result false "" "Unsupported platform — apply manually via Job_URL"
      "generic" date, by simp [apply_pre, h], rfl⟩

/-- Witness for C1: the unsupported-platform conjunct at a concrete
greenhouse.io URL. -/
theorem C1_one_result_per_attempt_witness :
    ∃ r : Result,
      apply_pre false "https://greenhouse.io/jobs/9" "20250101120000" "2025-01-01" =
        PreOutcome.result r ∧ r.status = "Failed" :=
  C1_one_result_per_attempt.2.2.2.2 false "https://greenhouse.io/jobs/9"
    "20250101120000" "2025-01-01" (by decide)

/-- Claim C10 (confirmed): every Result the program builds goes through
`_make_result`, whose status is exactly `Applied` when the success flag is
true and exactly `Failed` otherwise; at each of the nine call sites in
`browser_apply.py`, a failure carries the empty application id, the
platform is one of `linkedin`, `indeed`, `generic`, and the completion date
is the `utcnow` date. -/
theorem C10_result_shape :
    (∀ (success : Bool) (application_id notes platform date : String),
      (_make_result success application_id notes platform date).status =
        (if success then "Applied" else "Failed")) ∧
    (∀ (ts date e : String) (cfg : PlatformCfg), cfg ∈ PLATFORM_CONFIG.map Prod.snd →
      ∀ r ∈ resultCallSites ts date e cfg,
        (r.status = "Applied" ∨ r.status = "Failed") ∧
        (r.status = "Failed" → r.application_id = "") ∧
        (r.platform = "linkedin" ∨ r.platform = "indeed" ∨ r.platform = "generic") ∧
        r.applied_date = date) := by
  refine ⟨fun _ _ _ _ _ => rfl, ?_⟩
  intro ts date e cfg hcfg r hr
  have hcfg' : cfg = linkedinConfig ∨ cfg = indeedConfig := by
    simpa [PLATFORM_CONFIG] using hcfg
  rcases hcfg' with rfl | rfl <;>
  · simp only [resultCallSites, List.mem_cons, List.not_mem_nil, or_false] at hr
    rcases hr with rfl | rfl | rfl | rfl | rfl | rfl | rfl | rfl | rfl <;>
      simp [_make_result, linkedinConfig, indeedConfig]

/-- Witness for C10: the first call site (no apply button) under the
LinkedIn config. -/
theorem C10_result_shape_witness :
    ((_make_result false "" "No apply button found — may require external application"
        linkedinConfig.platform_name "2025-01-01").status = "Applied" ∨
      (_make_result false "" "No apply button found — may require external application"
        linkedinConfig.platform_name "2025-01-01").status = "Failed") ∧
    ((_make_result false "" "No apply button found — may require external application"
        linkedinConfig.platform_name "2025-01-01").status = "Failed" →
      (_make_result false "" "No apply button found — may require external application"
        linkedinConfig.platform_name "2025-01-01").application_id = "") ∧
    ((_make_result false "" "No apply button found — may require external application"
        linkedinConfig.platform_name "2025-01-01").platform = "linkedin" ∨
      (_make_result false "" "No apply button found — may require external application"
        linkedinConfig.platform_name "2025-01-01").platform = "indeed" ∨
      (_make_result false "" "No apply button found — may require external application"
        linkedinConfig.platform_name "2025-01-01").platform = "generic") ∧
    (_make_result false "" "No apply button found — may require external application"
      linkedinConfig.platform_name "2025-01-01").applied_date = "2025-01-01" :=
  C10_result_shape.2 "20250101120000" "2025-01-01" "boom" linkedinConfig
    (by simp [PLATFORM_CONFIG])
    (_make_result false "" "No apply button found — may require external application"
      linkedinConfig.platform_name "2025-01-01")
    (by simp [resultCallSites])

end JobAgent
